import Mathlib

/-!
Verification of the creenv canvas facade.

The repository contains two implementations of the same facade:
  * `src/unnamed/part_000` — a prototype-based `Canvas` (CommonJS module),
    modelled below in namespace `Proto`;
  * `src/lib/index.js` — an ES-class `Canvas`, modelled in namespace `Lib`.

The drawing context (`CanvasRenderingContext2D`) is an opaque collaborator;
we model its mutable style fields explicitly and every drawing call as an
operation appended to a trace (`ops`).  The host environment (DOM body,
`window`) is modelled by: a flag recording whether a freshly created canvas
element was attached to the body, a counter of registered viewport-resize
listeners, and viewport dimensions passed in wherever the source reads
`window.innerWidth` / `window.innerHeight`.
-/

namespace Creenv

/-- An operation issued on the 2D drawing context.  `fillRect` records the
fill style in force at the moment of the call, since that is the style the
rectangle is filled with. -/
inductive CtxOp where
  | beginPath : CtxOp
  | moveTo (x y : Int) : CtxOp
  | lineTo (x y : Int) : CtxOp
  | arc (x y radius startAngle endAngle : Int) (anticlockwise : Bool) : CtxOp
  | closePath : CtxOp
  | stroke : CtxOp
  | fill : CtxOp
  | fillRect (x y w h : Int) (style : String) : CtxOp
  | clearRect (x y w h : Int) : CtxOp
  | save : CtxOp
  | restore : CtxOp
deriving Repr, DecidableEq

/-- An HTML canvas element: backing-store pixel dimensions and whether
`style.display = "block"` has been set on it. -/
structure Elem where
  width : Int
  height : Int
  displayBlock : Bool
deriving Repr, DecidableEq

/-- A JavaScript optional argument: either omitted (`undefined`) or an
explicit value. -/
inductive JsArg (α : Type) where
  | undef : JsArg α
  | val : α → JsArg α
deriving Repr, DecidableEq

/-- The element produced by `document.createElement("canvas")`: default
backing store 300 by 150, inline display. -/
def createdElem : Elem := { width := 300, height := 150, displayBlock := false }

/-- A JavaScript runtime error raised during construction. -/
inductive JsError where
  | nullContext : JsError
deriving Repr, DecidableEq

/-- Decidable equality of construction outcomes, so concrete construction
scenarios can be settled by evaluation. -/
instance {ε α : Type} [DecidableEq ε] [DecidableEq α] : DecidableEq (Except ε α) :=
  fun a b =>
    match a, b with
    | Except.error x, Except.error y =>
        match decEq x y with
        | isTrue h => isTrue (by rw [h])
        | isFalse h => isFalse (by intro c; cases c; exact h rfl)
    | Except.error _, Except.ok _ => isFalse (by intro c; cases c)
    | Except.ok _, Except.error _ => isFalse (by intro c; cases c)
    | Except.ok x, Except.ok y =>
        match decEq x y with
        | isTrue h => isTrue (by rw [h])
        | isFalse h => isFalse (by intro c; cases c; exact h rfl)

namespace Proto

/-- State of a `Canvas` instance from `src/unnamed/part_000`, together with
the observable state of its collaborators.  Field names follow the source:
`canvas` is the element (construction fails before an instance exists when
it would be null, see `construct`), `ctxFillStyle` / `ctxStrokeStyle` are
`this.context.fillStyle` / `strokeStyle`, `pathStarted`, `fullWindow`,
`width` and `height` are the instance fields of the same names.  `ops` is
the trace of drawing-context calls, `resizeListeners` counts listeners
registered on `window` for the resize event, and `attachedNewToBody`
records whether the constructor created a fresh element and appended it to
`document.body`. -/
structure Canvas where
  canvas : Creenv.Elem
  ctxFillStyle : String
  ctxStrokeStyle : String
  fullWindow : Bool
  pathStarted : Bool
  width : Int
  height : Int
  ops : List Creenv.CtxOp
  resizeListeners : Nat
  attachedNewToBody : Bool
deriving Repr, DecidableEq

/-- `Canvas.prototype.setSize`: sets `this.canvas.width`, `this.canvas.height`,
`this.width`, `this.height`. -/
def setSize (width height : Int) (s : Canvas) : Canvas :=
  { s with canvas := { s.canvas with width := width, height := height },
           width := width, height := height }

/-- `Canvas.prototype.onWindowResizeHandler`: calls
`this.setSize(window.innerWidth, window.innerHeight)`; the viewport
dimensions at the moment of the event are passed in explicitly. -/
def onWindowResizeHandler (viewport : Int × Int) (s : Canvas) : Canvas :=
  setSize viewport.1 viewport.2 s

/-- `Canvas.prototype.init` (the body of the promise executor, which runs
synchronously): if `fullWindow`, set `canvas.style.display = "block"`, call
`setSize` with the viewport dimensions and register the resize listener;
otherwise copy the element dimensions into `this.width` / `this.height`. -/
def init (viewport : Int × Int) (s : Canvas) : Canvas :=
  if s.fullWindow then
    let s1 : Canvas := { s with canvas := { s.canvas with displayBlock := true } }
    let s2 := setSize viewport.1 viewport.2 s1
    { s2 with resizeListeners := s2.resizeListeners + 1 }
  else
    { s with width := s.canvas.width, height := s.canvas.height }

/-- `Canvas.prototype.fillStyle`. -/
def fillStyle (style : String) (s : Canvas) : Canvas :=
  { s with ctxFillStyle := style }

/-- `Canvas.prototype.strokeStyle`. -/
def strokeStyle (style : String) (s : Canvas) : Canvas :=
  { s with ctxStrokeStyle := style }

/-- `Canvas.prototype.background`: when `color` is `undefined`, fill the
whole canvas with the current fill style; otherwise remember the fill
style, set it to `color`, fill, and restore the remembered style. -/
def background (color : Option String) (s : Canvas) : Canvas :=
  match color with
  | Option.none =>
      { s with ops := s.ops ++
          [Creenv.CtxOp.fillRect 0 0 s.canvas.width s.canvas.height s.ctxFillStyle] }
  | Option.some c =>
      let fillstyle := s.ctxFillStyle
      let s1 := fillStyle c s
      let s2 : Canvas := { s1 with ops := s1.ops ++
          [Creenv.CtxOp.fillRect 0 0 s1.canvas.width s1.canvas.height s1.ctxFillStyle] }
      fillStyle fillstyle s2

/-- `Canvas.prototype.rect`: forwards to `context.fillRect`. -/
def rect (x y width height : Int) (s : Canvas) : Canvas :=
  { s with ops := s.ops ++ [Creenv.CtxOp.fillRect x y width height s.ctxFillStyle] }

/-- `Canvas.prototype.arc`: begins a fresh path unless `addToPath`, then
issues the context arc call.  Defaults (`anticlockwise = false`,
`addToPath = false`) are resolved at call sites. -/
def arc (x y radius startAngle endAngle : Int) (anticlockwise addToPath : Bool)
    (s : Canvas) : Canvas :=
  let s1 := if !addToPath then { s with ops := s.ops ++ [Creenv.CtxOp.beginPath] } else s
  { s1 with ops := s1.ops ++
      [Creenv.CtxOp.arc x y radius startAngle endAngle anticlockwise] }

/-- `Canvas.prototype.addPoint`: begin a path and move the pen when no path
is started, otherwise draw a straight segment to the point. -/
def addPoint (x y : Int) (s : Canvas) : Canvas :=
  if !s.pathStarted then
    { s with ops := s.ops ++ [Creenv.CtxOp.beginPath, Creenv.CtxOp.moveTo x y],
             pathStarted := true }
  else
    { s with ops := s.ops ++ [Creenv.CtxOp.lineTo x y] }

/-- A sequence of `addPoint` calls, in call order. -/
def addPoints (ps : List (Int × Int)) (s : Canvas) : Canvas :=
  ps.foldl (fun s p => addPoint p.1 p.2 s) s

/-- `Canvas.prototype.stroke`: close the path when `closed`, issue the
context stroke call, reset `pathStarted`. -/
def stroke (closed : Bool) (s : Canvas) : Canvas :=
  let s1 := if closed then { s with ops := s.ops ++ [Creenv.CtxOp.closePath] } else s
  { s1 with ops := s1.ops ++ [Creenv.CtxOp.stroke], pathStarted := false }

/-- `Canvas.prototype.fill`: close the path when `closed`, issue the
context fill call, reset `pathStarted`. -/
def fill (closed : Bool) (s : Canvas) : Canvas :=
  let s1 := if closed then { s with ops := s.ops ++ [Creenv.CtxOp.closePath] } else s
  { s1 with ops := s1.ops ++ [Creenv.CtxOp.fill], pathStarted := false }

/-- `Canvas.prototype.save`. -/
def save (s : Canvas) : Canvas :=
  { s with ops := s.ops ++ [Creenv.CtxOp.save] }

/-- `Canvas.prototype.restore`. -/
def restore (s : Canvas) : Canvas :=
  { s with ops := s.ops ++ [Creenv.CtxOp.restore] }

/-- `Canvas.prototype.clearAll`. -/
def clearAll (s : Canvas) : Canvas :=
  { s with ops := s.ops ++
      [Creenv.CtxOp.clearRect 0 0 s.canvas.width s.canvas.height] }

/-- The `function Canvas(canvasElement, fullWindow, autoInit)` constructor.
When `canvasElement` is `undefined` a fresh element is created and appended
to the body; an explicit `null` is kept as is, so `this.canvas.getContext`
throws a TypeError before the instance is usable.  `fullWindow` and
`autoInit` default to `true` when `undefined`; when `autoInit` holds,
`this.init()` runs inside the constructor.  The context's default styles
are black. -/
def construct (canvasElement : Creenv.JsArg (Option Creenv.Elem))
    (fullWindow autoInit : Creenv.JsArg Bool) (viewport : Int × Int) :
    Except Creenv.JsError Canvas :=
  let elemAndAttach : Option Creenv.Elem × Bool :=
    match canvasElement with
    | Creenv.JsArg.undef => (Option.some Creenv.createdElem, true)
    | Creenv.JsArg.val e => (e, false)
  let fw : Bool := match fullWindow with
    | Creenv.JsArg.undef => true
    | Creenv.JsArg.val b => b
  let ai : Bool := match autoInit with
    | Creenv.JsArg.undef => true
    | Creenv.JsArg.val b => b
  match elemAndAttach.1 with
  | Option.none => Except.error Creenv.JsError.nullContext
  | Option.some e =>
      let s : Canvas :=
        { canvas := e, ctxFillStyle := "#000000", ctxStrokeStyle := "#000000",
          fullWindow := fw, pathStarted := false, width := 0, height := 0,
          ops := [], resizeListeners := 0, attachedNewToBody := elemAndAttach.2 }
      if ai then Except.ok (init viewport s) else Except.ok s

end Proto

namespace Lib

/-- State of a `Canvas` instance from `src/lib/index.js`.  The class
declares no `width` or `height` fields and none of its methods assigns
them; reading `instance.width` in JavaScript therefore yields `undefined`,
modelled here as `Option.none` fields that no operation ever writes.  The
remaining fields are as in `Proto.Canvas`. -/
structure Canvas where
  canvas : Creenv.Elem
  ctxFillStyle : String
  ctxStrokeStyle : String
  fullWindow : Bool
  pathStarted : Bool
  width : Option Int
  height : Option Int
  ops : List Creenv.CtxOp
  resizeListeners : Nat
  attachedNewToBody : Bool
deriving Repr, DecidableEq

/-- `Canvas.setSize`: sets only `this.canvas.width` and
`this.canvas.height`; the class keeps no cached dimensions. -/
def setSize (width height : Int) (s : Canvas) : Canvas :=
  { s with canvas := { s.canvas with width := width, height := height } }

/-- `Canvas.onWindowResizeHandler`: `this.setSize(window.innerWidth,
window.innerHeight)`. -/
def onWindowResizeHandler (viewport : Int × Int) (s : Canvas) : Canvas :=
  setSize viewport.1 viewport.2 s

/-- `Canvas.init` (the synchronously-run promise executor body): when
`fullWindow`, call `setSize` with the viewport dimensions and register the
resize listener; otherwise do nothing. -/
def init (viewport : Int × Int) (s : Canvas) : Canvas :=
  if s.fullWindow then
    let s1 := setSize viewport.1 viewport.2 s
    { s1 with resizeListeners := s1.resizeListeners + 1 }
  else
    s

/-- `Canvas.fillStyle`. -/
def fillStyle (style : String) (s : Canvas) : Canvas :=
  { s with ctxFillStyle := style }

/-- `Canvas.strokeStyle`. -/
def strokeStyle (style : String) (s : Canvas) : Canvas :=
  { s with ctxStrokeStyle := style }

/-- `Canvas.rect`: forwards to `context.fillRect`. -/
def rect (x y width height : Int) (s : Canvas) : Canvas :=
  { s with ops := s.ops ++ [Creenv.CtxOp.fillRect x y width height s.ctxFillStyle] }

/-- `Canvas.arc`: begins a fresh path unless `addToPath`, then issues the
context arc call. -/
def arc (x y radius startAngle endAngle : Int) (anticlockwise addToPath : Bool)
    (s : Canvas) : Canvas :=
  let s1 := if !addToPath then { s with ops := s.ops ++ [Creenv.CtxOp.beginPath] } else s
  { s1 with ops := s1.ops ++
      [Creenv.CtxOp.arc x y radius startAngle endAngle anticlockwise] }

/-- `Canvas.addPoint`: begin a path and move the pen when no path is
started, otherwise draw a straight segment to the point. -/
def addPoint (x y : Int) (s : Canvas) : Canvas :=
  if !s.pathStarted then
    { s with ops := s.ops ++ [Creenv.CtxOp.beginPath, Creenv.CtxOp.moveTo x y],
             pathStarted := true }
  else
    { s with ops := s.ops ++ [Creenv.CtxOp.lineTo x y] }

/-- A sequence of `addPoint` calls, in call order. -/
def addPoints (ps : List (Int × Int)) (s : Canvas) : Canvas :=
  ps.foldl (fun s p => addPoint p.1 p.2 s) s

/-- `Canvas.stroke`: close the path when `closed`, issue the context stroke
call, reset `pathStarted`. -/
def stroke (closed : Bool) (s : Canvas) : Canvas :=
  let s1 := if closed then { s with ops := s.ops ++ [Creenv.CtxOp.closePath] } else s
  { s1 with ops := s1.ops ++ [Creenv.CtxOp.stroke], pathStarted := false }

/-- `Canvas.fill`: close the path when `closed`, issue the context fill
call, reset `pathStarted`. -/
def fill (closed : Bool) (s : Canvas) : Canvas :=
  let s1 := if closed then { s with ops := s.ops ++ [Creenv.CtxOp.closePath] } else s
  { s1 with ops := s1.ops ++ [Creenv.CtxOp.fill], pathStarted := false }

/-- `Canvas.save`. -/
def save (s : Canvas) : Canvas :=
  { s with ops := s.ops ++ [Creenv.CtxOp.save] }

/-- `Canvas.restore`. -/
def restore (s : Canvas) : Canvas :=
  { s with ops := s.ops ++ [Creenv.CtxOp.restore] }

/-- `Canvas.clearAll`. -/
def clearAll (s : Canvas) : Canvas :=
  { s with ops := s.ops ++
      [Creenv.CtxOp.clearRect 0 0 s.canvas.width s.canvas.height] }

/-- The class constructor `constructor(canvasElement = null, fullWindow =
true)`: the check is `if (!canvasElement)`, so both an omitted argument and
an explicit `null` (both modelled as `Option.none`) create a fresh element
and append it to the body.  No resize happens and no listener is
registered; those effects belong to `init`. -/
def construct (canvasElement : Option Creenv.Elem) (fullWindow : Bool) : Canvas :=
  let elemAndAttach : Creenv.Elem × Bool :=
    match canvasElement with
    | Option.none => (Creenv.createdElem, true)
    | Option.some e => (e, false)
  { canvas := elemAndAttach.1, ctxFillStyle := "#000000",
    ctxStrokeStyle := "#000000", fullWindow := fullWindow,
    pathStarted := false, width := Option.none, height := Option.none,
    ops := [], resizeListeners := 0, attachedNewToBody := elemAndAttach.2 }

end Lib

/-- The context operations a sequence of `addPoint` calls appends, given
whether a path was already started: a fresh path begins with `beginPath`
and a pen move to the first point, and every further point is a straight
segment — a polyline visiting the points in call order. -/
def polylineOps : Bool → List (Int × Int) → List CtxOp
  | _, [] => []
  | false, p :: ps => CtxOp.beginPath :: CtxOp.moveTo p.1 p.2 :: polylineOps true ps
  | true, p :: ps => CtxOp.lineTo p.1 p.2 :: polylineOps true ps

/-- A pre-existing surface sized 100 by 50, as in the spec scenario. -/
def elem100x50 : Elem := { width := 100, height := 50, displayBlock := false }

/-- A concrete prototype-implementation facade on a 100 by 50 surface,
windowed, idle. -/
def Proto.sample : Proto.Canvas :=
  { canvas := elem100x50, ctxFillStyle := "#000000", ctxStrokeStyle := "#000000",
    fullWindow := false, pathStarted := false, width := 0, height := 0,
    ops := [], resizeListeners := 0, attachedNewToBody := false }

/-- The same facade with a path already started. -/
def Proto.sampleOpen : Proto.Canvas := { Proto.sample with pathStarted := true }

/-- The same facade in full-window mode. -/
def Proto.sampleFull : Proto.Canvas := { Proto.sample with fullWindow := true }

/-- A concrete class-implementation facade on a 100 by 50 surface,
windowed, idle. -/
def Lib.sample : Lib.Canvas :=
  { canvas := elem100x50, ctxFillStyle := "#000000", ctxStrokeStyle := "#000000",
    fullWindow := false, pathStarted := false, width := Option.none,
    height := Option.none, ops := [], resizeListeners := 0,
    attachedNewToBody := false }

/-- The same facade with a path already started. -/
def Lib.sampleOpen : Lib.Canvas := { Lib.sample with pathStarted := true }

/-- The same facade in full-window mode. -/
def Lib.sampleFull : Lib.Canvas := { Lib.sample with fullWindow := true }

/-- A sequence of `addPoint` calls on the prototype implementation appends
the polyline trace for the initial flag value, and leaves the flag set iff
a path was already started or at least one point was added. -/
theorem protoAddPoints_trace (ps : List (Int × Int)) (s : Proto.Canvas) :
    (Proto.addPoints ps s).ops = s.ops ++ polylineOps s.pathStarted ps ∧
    (Proto.addPoints ps s).pathStarted = (s.pathStarted || !ps.isEmpty) := by
  induction ps generalizing s with
  | nil => simp [Proto.addPoints, polylineOps]
  | cons p ps ih =>
    have hstep : Proto.addPoints (p :: ps) s
        = Proto.addPoints ps (Proto.addPoint p.1 p.2 s) := rfl
    cases hps : s.pathStarted with
    | false =>
      have h1 : Proto.addPoint p.1 p.2 s =
          { s with ops := s.ops ++ [CtxOp.beginPath, CtxOp.moveTo p.1 p.2],
                   pathStarted := true } := by
        simp [Proto.addPoint, hps]
      rcases ih { s with ops := s.ops ++ [CtxOp.beginPath, CtxOp.moveTo p.1 p.2],
                         pathStarted := true } with ⟨hops, hflag⟩
      rw [hstep, h1]
      refine ⟨?_, ?_⟩
      · rw [hops]; simp [polylineOps, hps]
      · rw [hflag]; simp [hps]
    | true =>
      have h1 : Proto.addPoint p.1 p.2 s =
          { s with ops := s.ops ++ [CtxOp.lineTo p.1 p.2] } := by
        simp [Proto.addPoint, hps]
      rcases ih { s with ops := s.ops ++ [CtxOp.lineTo p.1 p.2] } with ⟨hops, hflag⟩
      rw [hstep, h1]
      refine ⟨?_, ?_⟩
      · rw [hops]; simp [polylineOps, hps]
      · rw [hflag]; simp [hps]

/-- A sequence of `addPoint` calls on the class implementation appends the
polyline trace for the initial flag value, and leaves the flag set iff a
path was already started or at least one point was added. -/
theorem libAddPoints_trace (ps : List (Int × Int)) (s : Lib.Canvas) :
    (Lib.addPoints ps s).ops = s.ops ++ polylineOps s.pathStarted ps ∧
    (Lib.addPoints ps s).pathStarted = (s.pathStarted || !ps.isEmpty) := by
  induction ps generalizing s with
  | nil => simp [Lib.addPoints, polylineOps]
  | cons p ps ih =>
    have hstep : Lib.addPoints (p :: ps) s
        = Lib.addPoints ps (Lib.addPoint p.1 p.2 s) := rfl
    cases hps : s.pathStarted with
    | false =>
      have h1 : Lib.addPoint p.1 p.2 s =
          { s with ops := s.ops ++ [CtxOp.beginPath, CtxOp.moveTo p.1 p.2],
                   pathStarted := true } := by
        simp [Lib.addPoint, hps]
      rcases ih { s with ops := s.ops ++ [CtxOp.beginPath, CtxOp.moveTo p.1 p.2],
                         pathStarted := true } with ⟨hops, hflag⟩
      rw [hstep, h1]
      refine ⟨?_, ?_⟩
      · rw [hops]; simp [polylineOps, hps]
      · rw [hflag]; simp [hps]
    | true =>
      have h1 : Lib.addPoint p.1 p.2 s =
          { s with ops := s.ops ++ [CtxOp.lineTo p.1 p.2] } := by
        simp [Lib.addPoint, hps]
      rcases ih { s with ops := s.ops ++ [CtxOp.lineTo p.1 p.2] } with ⟨hops, hflag⟩
      rw [hstep, h1]
      refine ⟨?_, ?_⟩
      · rw [hops]; simp [polylineOps, hps]
      · rw [hflag]; simp [hps]

/-- Claim C1: `addPoint(x, y)` is a two-state machine over the path flag.
For every state, if the flag is false the call begins a new path on the
surface, moves the pen to the point and sets the flag to true; if the flag
is true the call draws a straight segment to the point and leaves the flag
true.  Hence every nonempty sequence of `addPoint` calls with no
intervening stroke or fill leaves the flag true and records a polyline
visiting the points in call order.  Holds for both implementations. -/
theorem addPoint_two_state_machine (x y : Int) (ps : List (Int × Int))
    (sp : Proto.Canvas) (sl : Lib.Canvas) :
    (sp.pathStarted = false →
      (Proto.addPoint x y sp).pathStarted = true ∧
      (Proto.addPoint x y sp).ops = sp.ops ++ [CtxOp.beginPath, CtxOp.moveTo x y]) ∧
    (sp.pathStarted = true →
      (Proto.addPoint x y sp).pathStarted = true ∧
      (Proto.addPoint x y sp).ops = sp.ops ++ [CtxOp.lineTo x y]) ∧
    (ps ≠ [] →
      (Proto.addPoints ps sp).pathStarted = true ∧
      (Proto.addPoints ps sp).ops = sp.ops ++ polylineOps sp.pathStarted ps) ∧
    (sl.pathStarted = false →
      (Lib.addPoint x y sl).pathStarted = true ∧
      (Lib.addPoint x y sl).ops = sl.ops ++ [CtxOp.beginPath, CtxOp.moveTo x y]) ∧
    (sl.pathStarted = true →
      (Lib.addPoint x y sl).pathStarted = true ∧
      (Lib.addPoint x y sl).ops = sl.ops ++ [CtxOp.lineTo x y]) ∧
    (ps ≠ [] →
      (Lib.addPoints ps sl).pathStarted = true ∧
      (Lib.addPoints ps sl).ops = sl.ops ++ polylineOps sl.pathStarted ps) := by
  refine ⟨?_, ?_, ?_, ?_, ?_, ?_⟩
  · intro h; simp [Proto.addPoint, h]
  · intro h; simp [Proto.addPoint, h]
  · intro h
    rcases protoAddPoints_trace ps sp with ⟨hops, hflag⟩
    refine ⟨?_, hops⟩
    rw [hflag]
    cases ps with
    | nil => exact absurd rfl h
    | cons q qs => simp
  · intro h; simp [Lib.addPoint, h]
  · intro h; simp [Lib.addPoint, h]
  · intro h
    rcases libAddPoints_trace ps sl with ⟨hops, hflag⟩
    refine ⟨?_, hops⟩
    rw [hflag]
    cases ps with
    | nil => exact absurd rfl h
    | cons q qs => simp

/-- Witness for claim C1, at the spec scenario points, in both start
states and for both implementations. -/
theorem addPoint_two_state_machine_witness :
    ((Proto.addPoint 20 20 Proto.sample).pathStarted = true ∧
      (Proto.addPoint 20 20 Proto.sample).ops =
        Proto.sample.ops ++ [CtxOp.beginPath, CtxOp.moveTo 20 20]) ∧
    ((Proto.addPoint 40 10 Proto.sampleOpen).pathStarted = true ∧
      (Proto.addPoint 40 10 Proto.sampleOpen).ops =
        Proto.sampleOpen.ops ++ [CtxOp.lineTo 40 10]) ∧
    ((Proto.addPoints [(20, 20), (40, 10), (50, 90)] Proto.sample).pathStarted = true ∧
      (Proto.addPoints [(20, 20), (40, 10), (50, 90)] Proto.sample).ops =
        Proto.sample.ops ++
          polylineOps Proto.sample.pathStarted [(20, 20), (40, 10), (50, 90)]) ∧
    ((Lib.addPoint 20 20 Lib.sample).pathStarted = true ∧
      (Lib.addPoint 20 20 Lib.sample).ops =
        Lib.sample.ops ++ [CtxOp.beginPath, CtxOp.moveTo 20 20]) ∧
    ((Lib.addPoint 40 10 Lib.sampleOpen).pathStarted = true ∧
      (Lib.addPoint 40 10 Lib.sampleOpen).ops =
        Lib.sampleOpen.ops ++ [CtxOp.lineTo 40 10]) ∧
    ((Lib.addPoints [(20, 20), (40, 10), (50, 90)] Lib.sample).pathStarted = true ∧
      (Lib.addPoints [(20, 20), (40, 10), (50, 90)] Lib.sample).ops =
        Lib.sample.ops ++
          polylineOps Lib.sample.pathStarted [(20, 20), (40, 10), (50, 90)]) :=
  ⟨(addPoint_two_state_machine 20 20 [(20, 20), (40, 10), (50, 90)]
      Proto.sample Lib.sample).1 (by decide),
   (addPoint_two_state_machine 40 10 [(20, 20), (40, 10), (50, 90)]
      Proto.sampleOpen Lib.sampleOpen).2.1 (by decide),
   (addPoint_two_state_machine 20 20 [(20, 20), (40, 10), (50, 90)]
      Proto.sample Lib.sample).2.2.1 (by decide),
   (addPoint_two_state_machine 20 20 [(20, 20), (40, 10), (50, 90)]
      Proto.sample Lib.sample).2.2.2.1 (by decide),
   (addPoint_two_state_machine 40 10 [(20, 20), (40, 10), (50, 90)]
      Proto.sampleOpen Lib.sampleOpen).2.2.2.2.1 (by decide),
   (addPoint_two_state_machine 20 20 [(20, 20), (40, 10), (50, 90)]
      Proto.sample Lib.sample).2.2.2.2.2 (by decide)⟩

/-- Claim C2: for every prior flag value and every boolean `closed`,
`stroke(closed)` and `fill(closed)` first close the path on the surface
when `closed` is true, then issue the surface's stroke (respectively fill)
operation, and then unconditionally reset the path flag to false — also
when no path was open, in which case the underlying stroke or fill call is
still issued.  Holds for both implementations. -/
theorem stroke_fill_reset_pathStarted (closed : Bool)
    (sp : Proto.Canvas) (sl : Lib.Canvas) :
    (Proto.stroke closed sp).pathStarted = false ∧
    (Proto.stroke closed sp).ops =
      sp.ops ++ (if closed then [CtxOp.closePath] else []) ++ [CtxOp.stroke] ∧
    (Proto.fill closed sp).pathStarted = false ∧
    (Proto.fill closed sp).ops =
      sp.ops ++ (if closed then [CtxOp.closePath] else []) ++ [CtxOp.fill] ∧
    (Lib.stroke closed sl).pathStarted = false ∧
    (Lib.stroke closed sl).ops =
      sl.ops ++ (if closed then [CtxOp.closePath] else []) ++ [CtxOp.stroke] ∧
    (Lib.fill closed sl).pathStarted = false ∧
    (Lib.fill closed sl).ops =
      sl.ops ++ (if closed then [CtxOp.closePath] else []) ++ [CtxOp.fill] := by
  cases closed <;> simp [Proto.stroke, Proto.fill, Lib.stroke, Lib.fill]

/-- Claim C3: `arc` with `addToPath = false` begins a fresh path on the
surface before issuing the arc, yet leaves the facade's path flag exactly
as it was (a previously true flag stays true and becomes stale); with
`addToPath = true` it appends the arc without beginning a new path.  Holds
for both implementations. -/
theorem arc_beginPath_leaves_flag (x y r a b : Int) (acw : Bool)
    (sp : Proto.Canvas) (sl : Lib.Canvas) :
    (Proto.arc x y r a b acw false sp).ops =
      sp.ops ++ [CtxOp.beginPath, CtxOp.arc x y r a b acw] ∧
    (Proto.arc x y r a b acw false sp).pathStarted = sp.pathStarted ∧
    (Proto.arc x y r a b acw true sp).ops = sp.ops ++ [CtxOp.arc x y r a b acw] ∧
    (Proto.arc x y r a b acw true sp).pathStarted = sp.pathStarted ∧
    (Lib.arc x y r a b acw false sl).ops =
      sl.ops ++ [CtxOp.beginPath, CtxOp.arc x y r a b acw] ∧
    (Lib.arc x y r a b acw false sl).pathStarted = sl.pathStarted ∧
    (Lib.arc x y r a b acw true sl).ops = sl.ops ++ [CtxOp.arc x y r a b acw] ∧
    (Lib.arc x y r a b acw true sl).pathStarted = sl.pathStarted := by
  simp [Proto.arc, Lib.arc]

/-- Counterexample to claim C4 as stated: in the class implementation
(`src/lib/index.js`), `setSize(3, 4)` does not set the facade's cached
width and height fields to 3 and 4 — the class declares no such fields, so
they still read as undefined after the call. -/
theorem setSize_no_cached_fields_cex :
    ¬ ((Lib.setSize 3 4 Lib.sample).width = Option.some 3 ∧
       (Lib.setSize 3 4 Lib.sample).height = Option.some 4) := by
  decide

/-- Claim C4 amended: `setSize(w, h)` sets the surface's backing pixel
dimensions to `w` and `h` in both implementations; the prototype
implementation additionally sets its cached `width` and `height` fields to
`w` and `h`, while the class implementation caches no dimensions (its
`width` and `height` reads are untouched by the call). -/
theorem setSize_sets_dimensions (w h : Int) (sp : Proto.Canvas) (sl : Lib.Canvas) :
    (Proto.setSize w h sp).canvas.width = w ∧
    (Proto.setSize w h sp).canvas.height = h ∧
    (Proto.setSize w h sp).width = w ∧
    (Proto.setSize w h sp).height = h ∧
    (Lib.setSize w h sl).canvas.width = w ∧
    (Lib.setSize w h sl).canvas.height = h ∧
    (Lib.setSize w h sl).width = sl.width ∧
    (Lib.setSize w h sl).height = sl.height :=
  ⟨rfl, rfl, rfl, rfl, rfl, rfl, rfl, rfl⟩

/-- Counterexample to claim C5 as stated: in the class implementation, on
a surface sized 100 by 50 with `fullWindow = false`, `init` does not copy
the surface dimensions into the facade — its `width` still reads as
undefined, not 100. -/
theorem init_windowed_no_copy_cex :
    ¬ (Lib.init (800, 600) (Lib.construct (Option.some elem100x50) false)).width
        = Option.some 100 := by
  decide

/-- Claim C5 amended: in the prototype implementation, `init` with
`fullWindow = false` copies the surface's pre-existing backing dimensions
into the facade's `width` and `height` fields — on a 100 by 50 surface
they become 100 and 50; in the class implementation, `init` with
`fullWindow = false` does nothing at all (the class caches no
dimensions). -/
theorem init_windowed_reads_surface_dims (vp : Int × Int)
    (sp : Proto.Canvas) (sl : Lib.Canvas)
    (hp : sp.fullWindow = false) (hl : sl.fullWindow = false) :
    (Proto.init vp sp).width = sp.canvas.width ∧
    (Proto.init vp sp).height = sp.canvas.height ∧
    (Proto.construct (JsArg.val (Option.some elem100x50)) (JsArg.val false)
        (JsArg.val false) vp).map
      (fun s => ((Proto.init vp s).width, (Proto.init vp s).height))
      = Except.ok (100, 50) ∧
    Lib.init vp sl = sl := by
  refine ⟨?_, ?_, rfl, ?_⟩
  · simp [Proto.init, hp]
  · simp [Proto.init, hp]
  · simp [Lib.init, hl]

/-- Witness for the amended claim C5, on the spec scenario surface. -/
theorem init_windowed_reads_surface_dims_witness :
    (Proto.init (800, 600) Proto.sample).width = Proto.sample.canvas.width ∧
    (Proto.init (800, 600) Proto.sample).height = Proto.sample.canvas.height ∧
    (Proto.construct (JsArg.val (Option.some elem100x50)) (JsArg.val false)
        (JsArg.val false) (800, 600)).map
      (fun s => ((Proto.init (800, 600) s).width, (Proto.init (800, 600) s).height))
      = Except.ok (100, 50) ∧
    Lib.init (800, 600) Lib.sample = Lib.sample :=
  init_windowed_reads_surface_dims (800, 600) Proto.sample Lib.sample
    (by decide) (by decide)

/-- Counterexample to claim C6 as stated: in the class implementation with
`fullWindow = true` and an 800 by 600 viewport, `init` leaves the facade's
`width` reading undefined, not equal to the viewport width. -/
theorem init_fullWindow_no_cached_dims_cex :
    ¬ (Lib.init (800, 600) (Lib.construct Option.none true)).width
        = Option.some 800 := by
  decide

/-- Claim C6 amended: with `fullWindow = true`, `init` registers the
viewport-resize listener and sizes the surface to the viewport dimensions
at call time, and every subsequent resize event delivered to the handler
resizes it (via `setSize`) to the viewport dimensions current at that
event.  The prototype implementation also keeps its cached `width` and
`height` fields equal to those dimensions; the class implementation
updates only the surface — it caches no dimensions. -/
theorem init_fullWindow_tracks_viewport (vp vq : Int × Int)
    (sp sq : Proto.Canvas) (sl sm : Lib.Canvas)
    (hp : sp.fullWindow = true) (hl : sl.fullWindow = true) :
    (Proto.init vp sp).width = vp.1 ∧
    (Proto.init vp sp).height = vp.2 ∧
    (Proto.init vp sp).canvas.width = vp.1 ∧
    (Proto.init vp sp).canvas.height = vp.2 ∧
    (Proto.init vp sp).resizeListeners = sp.resizeListeners + 1 ∧
    (Proto.onWindowResizeHandler vq sq).width = vq.1 ∧
    (Proto.onWindowResizeHandler vq sq).height = vq.2 ∧
    (Proto.onWindowResizeHandler vq sq).canvas.width = vq.1 ∧
    (Lib.init vp sl).canvas.width = vp.1 ∧
    (Lib.init vp sl).canvas.height = vp.2 ∧
    (Lib.init vp sl).resizeListeners = sl.resizeListeners + 1 ∧
    (Lib.init vp sl).width = sl.width ∧
    (Lib.onWindowResizeHandler vq sm).canvas.width = vq.1 ∧
    (Lib.onWindowResizeHandler vq sm).canvas.height = vq.2 ∧
    (Lib.onWindowResizeHandler vq sm).width = sm.width := by
  simp [Proto.init, Proto.setSize, Proto.onWindowResizeHandler, hp,
        Lib.init, Lib.setSize, Lib.onWindowResizeHandler, hl]

/-- Witness for the amended claim C6, on concrete full-window facades with
an 800 by 600 viewport followed by a resize to 1024 by 768. -/
theorem init_fullWindow_tracks_viewport_witness :
    (Proto.init (800, 600) Proto.sampleFull).width = 800 ∧
    (Proto.init (800, 600) Proto.sampleFull).height = 600 ∧
    (Proto.init (800, 600) Proto.sampleFull).canvas.width = 800 ∧
    (Proto.init (800, 600) Proto.sampleFull).canvas.height = 600 ∧
    (Proto.init (800, 600) Proto.sampleFull).resizeListeners =
      Proto.sampleFull.resizeListeners + 1 ∧
    (Proto.onWindowResizeHandler (1024, 768) Proto.sample).width = 1024 ∧
    (Proto.onWindowResizeHandler (1024, 768) Proto.sample).height = 768 ∧
    (Proto.onWindowResizeHandler (1024, 768) Proto.sample).canvas.width = 1024 ∧
    (Lib.init (800, 600) Lib.sampleFull).canvas.width = 800 ∧
    (Lib.init (800, 600) Lib.sampleFull).canvas.height = 600 ∧
    (Lib.init (800, 600) Lib.sampleFull).resizeListeners =
      Lib.sampleFull.resizeListeners + 1 ∧
    (Lib.init (800, 600) Lib.sampleFull).width = Lib.sampleFull.width ∧
    (Lib.onWindowResizeHandler (1024, 768) Lib.sample).canvas.width = 1024 ∧
    (Lib.onWindowResizeHandler (1024, 768) Lib.sample).canvas.height = 768 ∧
    (Lib.onWindowResizeHandler (1024, 768) Lib.sample).width = Lib.sample.width :=
  init_fullWindow_tracks_viewport (800, 600) (1024, 768)
    Proto.sampleFull Proto.sample Lib.sampleFull Lib.sample
    (by decide) (by decide)

/-- Counterexample to claim C7 as stated: the prototype constructor with a
supplied 100 by 50 surface and all optional arguments left undefined
(`fullWindow` and `autoInit` default to true) registers a viewport-resize
listener and resizes the surface to the 800 by 600 viewport during
construction — the claim requires zero listeners and an untouched
surface. -/
theorem construct_autoInit_effects_cex :
    (Proto.construct (JsArg.val (Option.some elem100x50)) JsArg.undef JsArg.undef
        (800, 600)).map
      (fun s => (s.resizeListeners, s.canvas.width, s.canvas.height))
      = Except.ok (1, 800, 600) ∧
    ¬ (Proto.construct (JsArg.val (Option.some elem100x50)) JsArg.undef JsArg.undef
        (800, 600)).map
      (fun s => (s.resizeListeners, s.canvas.width, s.canvas.height))
      = Except.ok (0, 100, 50) := by
  decide

/-- Claim C7 amended: the class constructor performs no I/O beyond
creating and attaching a surface when none is supplied — it never resizes
the supplied surface, registers no resize listener and issues no drawing
call; the prototype constructor has those properties only when `autoInit`
is explicitly false, since otherwise it calls `init()` itself. -/
theorem construct_no_io_when_deferred (e : Creenv.Elem) (fw : Bool)
    (fwa : Creenv.JsArg Bool) (vp : Int × Int) :
    (Lib.construct (Option.some e) fw).canvas = e ∧
    (Lib.construct (Option.some e) fw).resizeListeners = 0 ∧
    (Lib.construct (Option.some e) fw).ops = [] ∧
    (Lib.construct (Option.some e) fw).attachedNewToBody = false ∧
    (Lib.construct Option.none fw).canvas = createdElem ∧
    (Lib.construct Option.none fw).attachedNewToBody = true ∧
    (Lib.construct Option.none fw).resizeListeners = 0 ∧
    (Lib.construct Option.none fw).ops = [] ∧
    (Proto.construct (JsArg.val (Option.some e)) fwa (JsArg.val false) vp).map
        (fun s => (s.canvas, s.resizeListeners, s.ops)) = Except.ok (e, 0, []) := by
  refine ⟨rfl, rfl, rfl, rfl, rfl, rfl, rfl, rfl, ?_⟩
  cases fwa <;> rfl

/-- Claim C8: `background(color)` with a color fills the full surface area
with that color and restores the context's fill style to exactly its value
from before the call; `background()` with no argument fills the full
surface area with the current fill style and leaves it unchanged. -/
theorem background_fills_and_restores_style (s : Proto.Canvas) (c : String) :
    (Proto.background (Option.some c) s).ctxFillStyle = s.ctxFillStyle ∧
    (Proto.background (Option.some c) s).ops =
      s.ops ++ [CtxOp.fillRect 0 0 s.canvas.width s.canvas.height c] ∧
    (Proto.background Option.none s).ctxFillStyle = s.ctxFillStyle ∧
    (Proto.background Option.none s).ops =
      s.ops ++ [CtxOp.fillRect 0 0 s.canvas.width s.canvas.height s.ctxFillStyle] :=
  ⟨rfl, rfl, rfl, rfl⟩

/-- Claim C9: for every width, height and prior state, `setSize` leaves
the facade's path flag unchanged, in both implementations — including a
resize delivered through the viewport-resize handler, so a path-building
sequence interrupted by a resize keeps the flag true. -/
theorem setSize_preserves_path_flag (w h : Int) (vp : Int × Int)
    (sp : Proto.Canvas) (sl : Lib.Canvas) :
    (Proto.setSize w h sp).pathStarted = sp.pathStarted ∧
    (Lib.setSize w h sl).pathStarted = sl.pathStarted ∧
    (Proto.onWindowResizeHandler vp sp).pathStarted = sp.pathStarted ∧
    (Lib.onWindowResizeHandler vp sl).pathStarted = sl.pathStarted :=
  ⟨rfl, rfl, rfl, rfl⟩

/-- Counterexample to claim C10 as stated: with an explicit null handle
the class implementation creates and attaches a fresh surface, but the
prototype implementation keeps the null handle (only an undefined argument
triggers creation there) and construction fails with a TypeError when the
drawing context is obtained from null — no surface is created. -/
theorem null_handle_divergence_cex :
    (Lib.construct Option.none true).attachedNewToBody = true ∧
    Proto.construct (JsArg.val Option.none) JsArg.undef JsArg.undef (800, 600)
      = Except.error JsError.nullContext := by
  decide

/-- Claim C10 amended: the class constructor treats an explicit null
handle exactly like an omitted one, creating and attaching a fresh
surface; the prototype constructor creates a surface only when the
argument is undefined, and with an explicit null it fails with a TypeError
while obtaining the drawing context. -/
theorem null_handle_behavior (fw : Bool) (fwa aia : Creenv.JsArg Bool)
    (vp : Int × Int) :
    (Lib.construct Option.none fw).canvas = createdElem ∧
    (Lib.construct Option.none fw).attachedNewToBody = true ∧
    Proto.construct (JsArg.val Option.none) fwa aia vp
      = Except.error JsError.nullContext ∧
    (Proto.construct JsArg.undef fwa (JsArg.val false) vp).map
        (fun s => (s.canvas, s.attachedNewToBody)) = Except.ok (createdElem, true) := by
  refine ⟨rfl, rfl, ?_, ?_⟩
  · cases fwa <;> cases aia <;> rfl
  · cases fwa <;> rfl

end Creenv
